import Mathlib

/-!
Verification development for a prompt-analysis tool consisting of two
Python modules: component_identification.py (classifies prompt text into
eight component categories via an external text-generation service, with
a bounded retry loop) and placeholder_identification.py (detects template
placeholders, computes their relative word position, and classifies them
into five categories).

The development shallowly embeds the Python source in Lean. Strings are
treated as their character lists; the model covers the ASCII fragment the
analysed data lives in (the Python functions str.lower, str.strip and the
regex classes are Unicode-aware, but every string any claim touches is
ASCII). Machine floats in the source (similarity thresholds, wait times)
are modelled as exact rationals; for the short strings involved, the
rational comparison and the float comparison agree, because the rationals
compared have small denominators while the float error is below 2^-50.
All definitions are fuel-based structural recursions so that closed terms
reduce by rfl and decide.
-/

namespace S2P

/-! ### Characters written by code point, keeping the source free of
delimiter characters that are awkward inside char literals. -/

def lbraceC : Char := Char.ofNat 123

def rbraceC : Char := Char.ofNat 125

def dquoteC : Char := Char.ofNat 34

def bslashC : Char := Char.ofNat 92

def squoteS : String := String.singleton (Char.ofNat 39)

def dquoteS : String := String.singleton dquoteC

/-! ### Small Python string primitives used by both modules. -/

/-- Python str.lower restricted to ASCII. -/
def pyLowerChar (c : Char) : Char :=
  if 65 ≤ c.toNat ∧ c.toNat ≤ 90 then Char.ofNat (c.toNat + 32) else c

def pyLower (s : String) : String := String.mk (s.data.map pyLowerChar)

/-- The ASCII whitespace stripped by Python str.strip and float(). -/
def pyWsChar (c : Char) : Bool :=
  c.toNat = 32 || c.toNat = 9 || c.toNat = 10 || c.toNat = 13 || c.toNat = 11 || c.toNat = 12

def pyStrip (s : String) : String :=
  String.mk (((s.data.dropWhile pyWsChar).reverse.dropWhile pyWsChar).reverse)

/-- Lexicographic comparison of character lists by code point, as Python
compares strings. -/
def charListLt : List Char → List Char → Bool
  | [], [] => false
  | [], _ :: _ => true
  | _ :: _, [] => false
  | a :: as, b :: bs =>
    if a.toNat < b.toNat then true
    else if b.toNat < a.toNat then false
    else charListLt as bs

/-- First index at which pat occurs in the text, as re.search of an escaped
literal reports it (None when absent). -/
def findSubstrAux (pat : List Char) : List Char → Nat → Option Nat
  | [], i => if pat.isEmpty then some i else none
  | c :: rest, i =>
    if pat.isPrefixOf (c :: rest) then some i else findSubstrAux pat rest (i + 1)

/-- Python substring membership, needle in hay. -/
def containsSubstr (hay needle : String) : Bool :=
  (findSubstrAux needle.data hay.data 0).isSome

/-- Python str.split with a nonempty separator: nonoverlapping, left to
right. Fuel is the length of the string plus one; each step consumes at
least one character. -/
def pySplitAux (sep : List Char) : Nat → List Char → List Char → List (List Char)
  | 0, acc, rest => [acc.reverse ++ rest]
  | _ + 1, acc, [] => [acc.reverse]
  | fuel + 1, acc, c :: rest =>
    if sep.isPrefixOf (c :: rest) then
      acc.reverse :: pySplitAux sep fuel [] ((c :: rest).drop sep.length)
    else
      pySplitAux sep fuel (c :: acc) rest

def pySplit (s sep : String) : List String :=
  (pySplitAux sep.data (s.data.length + 1) [] s.data).map String.mk

/-! ### Python float() on finite decimal literals. The inf, nan and
underscore forms accepted by float() never arise from the wait-time
substrings this is applied to and are modelled as parse failures. -/

def digitVal (c : Char) : Nat := c.toNat - 48

def digitsToNat (ds : List Char) : Nat :=
  ds.foldl (fun acc c => acc * 10 + digitVal c) 0

/-- Parse an optional sign, returning the sign as a rational factor and the
remaining characters. -/
def pyFloatSign : List Char → ℚ × List Char
  | c :: rest =>
    if c = '+' then (1, rest) else if c = '-' then (-1, rest) else (1, c :: rest)
  | [] => (1, [])

/-- digits [. digits] [e [sign] digits], requiring at least one digit in the
integer or fractional part and consuming the whole input. -/
def pyFloatBody (cs : List Char) : Option ℚ :=
  let ip := cs.takeWhile Char.isDigit
  let rest1 := cs.dropWhile Char.isDigit
  let (fp, rest2) :=
    match rest1 with
    | c :: r =>
      if c = '.' then (r.takeWhile Char.isDigit, r.dropWhile Char.isDigit)
      else ([], rest1)
    | [] => ([], rest1)
  if ip.isEmpty ∧ fp.isEmpty then none
  else
    let mant : ℚ := (digitsToNat ip : ℚ) + (digitsToNat fp : ℚ) / ((10 : ℚ) ^ fp.length)
    match rest2 with
    | [] => some mant
    | e :: r =>
      if e = 'e' ∨ e = 'E' then
        let (es, r2) := pyFloatSign r
        let ed := r2.takeWhile Char.isDigit
        let r3 := r2.dropWhile Char.isDigit
        if ed.isEmpty ∨ ¬r3.isEmpty then none
        else if es = 1 then some (mant * (10 : ℚ) ^ digitsToNat ed)
        else some (mant / (10 : ℚ) ^ digitsToNat ed)
      else none

/-- Python float(string): strip whitespace, optional sign, decimal literal.
None models the ValueError branch. -/
def pyFloat (s : String) : Option ℚ :=
  let cs := (s.data.dropWhile pyWsChar).reverse.dropWhile pyWsChar |>.reverse
  let (sgn, cs2) := pyFloatSign cs
  (pyFloatBody cs2).map (fun q => sgn * q)

/-! ### difflib.SequenceMatcher ratio, used by find_best_match
(component_identification.py line 156) and difflib.get_close_matches
(placeholder_identification.py line 92). Both call sites pass no junk
predicate, so the junk set is empty; the autojunk heuristic only removes
popular elements from the index when the second sequence has at least 200
elements. -/

/-- The index b2j of SequenceMatcher.__chain_b before autojunk: each
character of b mapped to its ascending list of positions. -/
def b2jBuild (b : List Char) : List (Char × List Nat) :=
  b.enum.foldl (fun acc p =>
    match acc.lookup p.2 with
    | some js => acc.map (fun q => if q.1 = p.2 then (q.1, js ++ [p.1]) else q)
    | none => acc ++ [(p.2, [p.1])]) []

/-- The autojunk step of __chain_b: with 200 or more elements in b, drop
characters occurring more than one percent of the time. -/
def chainB (b : List Char) : List (Char × List Nat) :=
  let m := b2jBuild b
  let n := b.length
  if 200 ≤ n then
    let ntest := n / 100 + 1
    m.filter (fun p => !(decide (ntest < p.2.length)))
  else m

def b2jGet (m : List (Char × List Nat)) (c : Char) : List Nat :=
  (m.lookup c).getD []

/-- The inner j-loop of find_longest_match for one position i of a: threads
the new run-length table and the current best triple; a j at or past bhi
breaks. Run lengths read the table of the previous i. -/
def flmInner (blo bhi i : Nat) (j2len : List (Nat × Nat)) :
    List Nat → List (Nat × Nat) → Nat × Nat × Nat → List (Nat × Nat) × (Nat × Nat × Nat)
  | [], acc, best => (acc, best)
  | j :: js, acc, best =>
    if j < blo then flmInner blo bhi i j2len js acc best
    else if bhi ≤ j then (acc, best)
    else
      let prev := if j = 0 then 0 else (j2len.lookup (j - 1)).getD 0
      let k := prev + 1
      let acc2 := (j, k) :: acc
      let best2 := if best.2.2 < k then (i + 1 - k, j + 1 - k, k) else best
      flmInner blo bhi i j2len js acc2 best2

/-- The outer i-loop of find_longest_match over the indices of the a-window. -/
def flmLoop (a : List Char) (b2j : List (Char × List Nat)) (blo bhi : Nat) :
    List Nat → List (Nat × Nat) → Nat × Nat × Nat → Nat × Nat × Nat
  | [], _, best => best
  | i :: is, j2len, best =>
    let js := b2jGet b2j (a.getD i (Char.ofNat 0))
    let (newj2len, best2) := flmInner blo bhi i j2len js [] best
    flmLoop a b2j blo bhi is newj2len best2

/-- The first extension while-loop of find_longest_match (the junk set is
empty, so only character equality is tested). Fuel bounds the number of
steps; each step moves besti down by one, so besti itself is enough fuel. -/
def extendLow (a b : List Char) (alo blo : Nat) : Nat → Nat × Nat × Nat → Nat × Nat × Nat
  | 0, best => best
  | fuel + 1, (besti, bestj, bestsize) =>
    if alo < besti ∧ blo < bestj ∧
        a.getD (besti - 1) (Char.ofNat 0) = b.getD (bestj - 1) (Char.ofNat 0) then
      extendLow a b alo blo fuel (besti - 1, bestj - 1, bestsize + 1)
    else (besti, bestj, bestsize)

/-- The second extension while-loop of find_longest_match. -/
def extendHigh (a b : List Char) (ahi bhi : Nat) : Nat → Nat × Nat × Nat → Nat × Nat × Nat
  | 0, best => best
  | fuel + 1, (besti, bestj, bestsize) =>
    if besti + bestsize < ahi ∧ bestj + bestsize < bhi ∧
        a.getD (besti + bestsize) (Char.ofNat 0) = b.getD (bestj + bestsize) (Char.ofNat 0) then
      extendHigh a b ahi bhi fuel (besti, bestj, bestsize + 1)
    else (besti, bestj, bestsize)

/-- SequenceMatcher.find_longest_match on the window a[alo:ahi], b[blo:bhi],
with an empty junk set. The two junk extension loops of the source are
no-ops with no junk and are omitted. -/
def findLongestMatch (a b : List Char) (b2j : List (Char × List Nat))
    (alo ahi blo bhi : Nat) : Nat × Nat × Nat :=
  let best := flmLoop a b2j blo bhi (List.range' alo (ahi - alo)) [] (alo, blo, 0)
  let best2 := extendLow a b alo blo ahi best
  extendHigh a b ahi bhi (bhi + ahi) best2

/-- Total size of the matching blocks of get_matching_blocks: the longest
match of a window plus, recursively, the matches of the windows before and
after it. The merge step of the source preserves this sum. Each level of
the recursion shrinks the a-window, so fuel one beyond the length of a is
enough. -/
def matchingSum (a b : List Char) (b2j : List (Char × List Nat)) :
    Nat → Nat → Nat → Nat → Nat → Nat
  | 0, _, _, _, _ => 0
  | fuel + 1, alo, ahi, blo, bhi =>
    let (i, j, k) := findLongestMatch a b b2j alo ahi blo bhi
    if k = 0 then 0
    else k + matchingSum a b b2j fuel alo i blo j + matchingSum a b b2j fuel (i + k) ahi (j + k) bhi

/-- SequenceMatcher(None, a, b).ratio(): twice the matched total over the
combined length, and 1 when both sequences are empty. -/
def ratioOf (a b : List Char) : ℚ :=
  let matchesN := matchingSum a b (chainB b) (a.length + 1) 0 a.length 0 b.length
  let t := a.length + b.length
  if t = 0 then 1 else 2 * (matchesN : ℚ) / (t : ℚ)

/-! ### Text Position Analyzer (placeholder_identification.py). -/

/-- A regex word character, ASCII fragment of Python backslash-w. -/
def isWordChar (c : Char) : Bool := c.isAlphanum || c = '_'

def countWordsAux : List Char → Bool → Nat
  | [], _ => 0
  | c :: cs, inWord =>
    if isWordChar c then
      (if inWord then 0 else 1) + countWordsAux cs true
    else
      countWordsAux cs false

/-- Number of maximal word-character runs: the match count of the pattern
word-boundary word-chars word-boundary used at lines 42 and 48 of
placeholder_identification.py. -/
def countWords (cs : List Char) : Nat := countWordsAux cs false

/-- A character admitted inside braces by the placeholder pattern:
letters, digits, underscore, dot, dollar. -/
def nameChar (c : Char) : Bool :=
  c.isAlphanum || c = '_' || c = '.' || c = Char.ofNat 36

/-- Match a double-brace placeholder at the head of the input, returning the
matched text and the remainder. -/
def matchDoubleBrace (cs : List Char) : Option (List Char × List Char) :=
  match cs with
  | c1 :: c2 :: rest =>
    if c1 = lbraceC ∧ c2 = lbraceC then
      let nm := rest.takeWhile nameChar
      let rest2 := rest.dropWhile nameChar
      match rest2 with
      | d1 :: d2 :: rest3 =>
        if d1 = rbraceC ∧ d2 = rbraceC then
          some (lbraceC :: lbraceC :: (nm ++ [rbraceC, rbraceC]), rest3)
        else none
      | _ => none
    else none
  | _ => none

/-- Match a single-brace placeholder at the head of the input. -/
def matchSingleBrace (cs : List Char) : Option (List Char × List Char) :=
  match cs with
  | c1 :: rest =>
    if c1 = lbraceC then
      let nm := rest.takeWhile nameChar
      let rest2 := rest.dropWhile nameChar
      match rest2 with
      | d1 :: rest3 => if d1 = rbraceC then some (lbraceC :: (nm ++ [rbraceC]), rest3) else none
      | _ => none
    else none
  | _ => none

/-- Match the literal token PLACEHOLDER at the head of the input. -/
def matchLiteralPH (cs : List Char) : Option (List Char × List Char) :=
  if ("PLACEHOLDER".data).isPrefixOf cs then
    some ("PLACEHOLDER".data, cs.drop 11)
  else none

/-- Leftmost-first scan of re.findall with the alternation double-brace,
single-brace, PLACEHOLDER. Each alternative is deterministic because the
name class excludes braces, so greedy matching needs no backtracking. A
match consumes at least one character, so fuel one beyond the length is
enough. -/
def scanPH : Nat → List Char → List String
  | 0, _ => []
  | _ + 1, [] => []
  | fuel + 1, c :: rest =>
    match matchDoubleBrace (c :: rest) with
    | some (tok, rem) => String.mk tok :: scanPH fuel rem
    | none =>
      match matchSingleBrace (c :: rest) with
      | some (tok, rem) => String.mk tok :: scanPH fuel rem
      | none =>
        match matchLiteralPH (c :: rest) with
        | some (tok, rem) => String.mk tok :: scanPH fuel rem
        | none => scanPH fuel rest

/-- detect_placeholder (placeholder_identification.py lines 30-35). -/
def detect_placeholder (prompt_template : String) : List String :=
  scanPH (prompt_template.data.length + 1) prompt_template.data

/-- classify_relative_word_position (lines 54-63). The Python comparisons
are on floats; over the word counts involved the rational comparison is
identical, since a disagreement would need the true quotient within 2^-50
of the integer word position. -/
def classify_relative_word_position (word_position total_words : Nat) : String :=
  if (word_position : ℚ) ≤ (total_words : ℚ) / 3 then "Beginning"
  else if (word_position : ℚ) ≥ (total_words : ℚ) / 3 * 2 then "End"
  else "Middle"

/-- calculate_relative_word_positions (lines 37-52): total words over the
whole template, and per placeholder the words before the first occurrence
of its text; a placeholder whose text is not found is silently skipped. -/
def calculate_relative_word_positions (prompt_template : String) (placeholders : List String) :
    List (String × String) :=
  let tcs := prompt_template.data
  let total_words := countWords tcs
  placeholders.filterMap fun p =>
    (findSubstrAux p.data tcs 0).map fun char_start =>
      (p, classify_relative_word_position (countWords (tcs.take char_start)) total_words)

/-! ### External capability. One call to the text-generation service either
returns a response string or raises a failure carrying an error message
(str of the exception). The orchestrators are modelled as functions of the
per-call outcome. -/

inductive CallResult where
  | success (response : String)
  | failure (message : String)

/-! ### Placeholder Classification Orchestrator
(placeholder_identification.py lines 65-100). -/

def PLACEHOLDER_CATEGORIES : List String :=
  ["User Question", "Contextual Information", "Knowledge Input", "Metadata/Short Phrases",
    "Others"]

/-- difflib.get_close_matches(word, possibilities, n=1, cutoff): keep the
possibilities whose ratio against word reaches the cutoff (the
real_quick_ratio and quick_ratio tests of the source are upper bounds of
ratio, so the three-way conjunction is the ratio test alone) and return
the largest by the pair (ratio, string), the order heapq.nlargest uses on
the (score, candidate) tuples. -/
def getCloseMatches1 (word : String) (possibilities : List String) (cutoff : ℚ) :
    Option String :=
  let scored := possibilities.filterMap fun x =>
    let r := ratioOf x.data word.data
    if cutoff ≤ r then some (r, x) else none
  (scored.foldl (fun acc p =>
    match acc with
    | none => some p
    | some q =>
      if q.1 < p.1 ∨ (q.1 = p.1 ∧ charListLt q.2.data p.2.data) then some p else some q)
    none).map Prod.snd

/-- classify_placeholder_with_llm (lines 65-100): strip the raw answer,
reduce it to the closest of the five categories at cutoff 0.6, and return
Others when nothing clears the cutoff or the external call raised. -/
def classify_placeholder_with_llm (call : CallResult) : String :=
  match call with
  | CallResult.success content =>
    let response := pyStrip content
    match getCloseMatches1 response PLACEHOLDER_CATEGORIES (3 / 5) with
    | some best => best
    | none => "Others"
  | CallResult.failure _ => "Others"

/-! ### A model of Python json values, with lists and objects as mutual
inductives so that all recursions are structural and closed terms reduce.
Numbers keep their source text: no claim inspects numeric semantics, only
the int/float type name and the round trip through dumps of untouched
values. -/

mutual

inductive Json where
  | null
  | bool (b : Bool)
  | num (raw : String)
  | str (s : String)
  | arr (elems : JsonList)
  | obj (entries : JsonObj)

inductive JsonList where
  | nil
  | cons (head : Json) (tail : JsonList)

inductive JsonObj where
  | nil
  | cons (key : String) (val : Json) (tail : JsonObj)

end

def JsonObj.toList : JsonObj → List (String × Json)
  | JsonObj.nil => []
  | JsonObj.cons k v t => (k, v) :: t.toList

def JsonObj.ofList : List (String × Json) → JsonObj
  | [] => JsonObj.nil
  | (k, v) :: t => JsonObj.cons k v (JsonObj.ofList t)

def Json.isObj : Json → Bool
  | Json.obj _ => true
  | _ => false

def Json.isStr : Json → Bool
  | Json.str _ => true
  | _ => false

/-- The type name Python reports for a parsed json value, as it appears in
an AttributeError message. -/
def pyTypeName : Json → String
  | Json.null => "NoneType"
  | Json.bool _ => "bool"
  | Json.str _ => "str"
  | Json.arr _ => "list"
  | Json.obj _ => "dict"
  | Json.num raw =>
    if raw.data.any (fun c => c = '.' || c = 'e' || c = 'E') then "float" else "int"

/-- Inserting one key of a json object into the Python dict under
construction: a repeated key keeps its first position and takes the last
value. -/
def pyDictInsert (d : List (String × Json)) (k : String) (v : Json) :
    List (String × Json) :=
  if d.any (fun p => p.1 = k) then
    d.map (fun p => if p.1 = k then (k, v) else p)
  else d ++ [(k, v)]

/-! ### json.loads. The grammar of the json module with its default strict
mode: JSON whitespace, the three literals, numbers by the NUMBER_RE regex,
strings with escapes (a lone escaped surrogate is modelled as the
replacement of Char.ofNat; no claim exercises one), arrays, and objects
built into dicts key by key. NaN, Infinity and -Infinity are accepted by
the Python parser but are unreachable here: the one call site lowercases
its input first, and the retry loop only parses strings this file's dumps
produced. None models JSONDecodeError. -/

def jsonWsChar (c : Char) : Bool :=
  c.toNat = 32 || c.toNat = 9 || c.toNat = 10 || c.toNat = 13

def hexVal (c : Char) : Option Nat :=
  if c.isDigit then some (c.toNat - 48)
  else if 97 ≤ c.toNat ∧ c.toNat ≤ 102 then some (c.toNat - 87)
  else if 65 ≤ c.toNat ∧ c.toNat ≤ 70 then some (c.toNat - 55)
  else none

def parseHex4 : List Char → Option (Nat × List Char)
  | a :: b :: c :: d :: rest =>
    match hexVal a, hexVal b, hexVal c, hexVal d with
    | some x, some y, some z, some w => some (((x * 16 + y) * 16 + z) * 16 + w, rest)
    | _, _, _, _ => none
  | _ => none

/-- The body of a JSON string after its opening quote, strict mode: raw
control characters are rejected, the eight shorthand escapes and the u
escape are decoded. -/
def parseStrBody : Nat → List Char → List Char → Option (String × List Char)
  | 0, _, _ => none
  | _ + 1, _, [] => none
  | fuel + 1, acc, c :: rest =>
    if c = dquoteC then some (String.mk acc.reverse, rest)
    else if c = bslashC then
      match rest with
      | [] => none
      | e :: rest2 =>
        if e = dquoteC then parseStrBody fuel (dquoteC :: acc) rest2
        else if e = bslashC then parseStrBody fuel (bslashC :: acc) rest2
        else if e = '/' then parseStrBody fuel ('/' :: acc) rest2
        else if e = 'b' then parseStrBody fuel (Char.ofNat 8 :: acc) rest2
        else if e = 'f' then parseStrBody fuel (Char.ofNat 12 :: acc) rest2
        else if e = 'n' then parseStrBody fuel (Char.ofNat 10 :: acc) rest2
        else if e = 'r' then parseStrBody fuel (Char.ofNat 13 :: acc) rest2
        else if e = 't' then parseStrBody fuel (Char.ofNat 9 :: acc) rest2
        else if e = 'u' then
          match parseHex4 rest2 with
          | some (n, rest3) => parseStrBody fuel (Char.ofNat n :: acc) rest3
          | none => none
        else none
    else if c.toNat < 32 then none
    else parseStrBody fuel (c :: acc) rest

/-- A JSON number at the head of the input, by the NUMBER_RE regex of the
json module: integer part 0 or nonzero-led digits, optional fraction and
exponent groups that only count when complete. The matched text is kept. -/
def parseNumber (cs : List Char) : Option (Json × List Char) :=
  let (sgn, cs1) :=
    match cs with
    | c :: r => if c = '-' then ([c], r) else (([] : List Char), cs)
    | [] => (([] : List Char), cs)
  match cs1 with
  | [] => none
  | d :: r =>
    if ¬d.isDigit then none
    else
      let (ip, rest1) :=
        if d = '0' then ([d], r)
        else (d :: r.takeWhile Char.isDigit, r.dropWhile Char.isDigit)
      let (fp, rest2) :=
        match rest1 with
        | p :: pr =>
          if p = '.' then
            let fd := pr.takeWhile Char.isDigit
            if fd.isEmpty then (([] : List Char), rest1)
            else (p :: fd, pr.dropWhile Char.isDigit)
          else (([] : List Char), rest1)
        | [] => (([] : List Char), rest1)
      let (ep, rest3) :=
        match rest2 with
        | e :: er =>
          if e = 'e' ∨ e = 'E' then
            match er with
            | s :: sr =>
              if s = '+' ∨ s = '-' then
                let ed := sr.takeWhile Char.isDigit
                if ed.isEmpty then (([] : List Char), rest2)
                else (e :: s :: ed, sr.dropWhile Char.isDigit)
              else
                let ed := er.takeWhile Char.isDigit
                if ed.isEmpty then (([] : List Char), rest2)
                else (e :: ed, er.dropWhile Char.isDigit)
            | [] => (([] : List Char), rest2)
          else (([] : List Char), rest2)
        | [] => (([] : List Char), rest2)
      some (Json.num (String.mk (sgn ++ ip ++ fp ++ ep)), rest3)

def listToJsonList : List Json → JsonList
  | [] => JsonList.nil
  | x :: t => JsonList.cons x (listToJsonList t)

mutual

/-- A JSON value after optional whitespace. Fuel decreases at every mutual
call; every decrement is paired with at least one consumed character, so
twice the input length is enough. -/
def parseVal : Nat → List Char → Option (Json × List Char)
  | 0, _ => none
  | fuel + 1, cs =>
    match cs.dropWhile jsonWsChar with
    | [] => none
    | c :: rest =>
      if c = lbraceC then
        match rest.dropWhile jsonWsChar with
        | d :: r2 =>
          if d = rbraceC then some (Json.obj JsonObj.nil, r2)
          else parseMembers fuel [] rest
        | [] => none
      else if c = '[' then
        match rest.dropWhile jsonWsChar with
        | d :: r2 =>
          if d = ']' then some (Json.arr JsonList.nil, r2)
          else parseElements fuel [] rest
        | [] => none
      else if c = dquoteC then
        (parseStrBody (rest.length + 1) [] rest).map (fun p => (Json.str p.1, p.2))
      else if c = 't' then
        if "true".data.isPrefixOf (c :: rest) then some (Json.bool true, rest.drop 3) else none
      else if c = 'f' then
        if "false".data.isPrefixOf (c :: rest) then some (Json.bool false, rest.drop 4) else none
      else if c = 'n' then
        if "null".data.isPrefixOf (c :: rest) then some (Json.null, rest.drop 3) else none
      else parseNumber (c :: rest)

/-- The members of an object after its opening brace, accumulating into a
Python dict. -/
def parseMembers : Nat → List (String × Json) → List Char → Option (Json × List Char)
  | 0, _, _ => none
  | fuel + 1, acc, cs =>
    match cs.dropWhile jsonWsChar with
    | [] => none
    | c :: rest =>
      if c = dquoteC then
        match parseStrBody (rest.length + 1) [] rest with
        | none => none
        | some (k, rest2) =>
          match rest2.dropWhile jsonWsChar with
          | [] => none
          | d :: rest3 =>
            if d = ':' then
              match parseVal fuel rest3 with
              | none => none
              | some (v, rest4) =>
                let acc2 := pyDictInsert acc k v
                match rest4.dropWhile jsonWsChar with
                | [] => none
                | e :: rest5 =>
                  if e = ',' then parseMembers fuel acc2 rest5
                  else if e = rbraceC then some (Json.obj (JsonObj.ofList acc2), rest5)
                  else none
            else none
      else none

/-- The elements of an array after its opening bracket. -/
def parseElements : Nat → List Json → List Char → Option (Json × List Char)
  | 0, _, _ => none
  | fuel + 1, acc, cs =>
    match parseVal fuel cs with
    | none => none
    | some (v, rest) =>
      match rest.dropWhile jsonWsChar with
      | [] => none
      | d :: rest2 =>
        if d = ',' then parseElements fuel (v :: acc) rest2
        else if d = ']' then some (Json.arr (listToJsonList (v :: acc).reverse), rest2)
        else none

end

/-- json.loads: one value, then only whitespace may remain (Extra data
otherwise). -/
def json_loads (s : String) : Option Json :=
  match parseVal (2 * s.data.length + 2) s.data with
  | some (v, rest) => if (rest.dropWhile jsonWsChar).isEmpty then some v else none
  | none => none

/-! ### json.dumps with its defaults: ensure_ascii, item separator comma
space, key separator colon space. Numeric values are emitted as their kept
source text; repr of a parsed float can differ from that text, but no
claim inspects a dumped float. -/

def hexDigitChar (n : Nat) : Char :=
  if n < 10 then Char.ofNat (48 + n) else Char.ofNat (87 + n)

def escU (n : Nat) : String :=
  String.mk [bslashC, 'u', hexDigitChar (n / 4096 % 16), hexDigitChar (n / 256 % 16),
    hexDigitChar (n / 16 % 16), hexDigitChar (n % 16)]

/-- One character of a dumped string: the ESCAPE_ASCII classes of the json
encoder (characters outside space..tilde escaped, basic plane only). -/
def escChar (c : Char) : String :=
  if c = dquoteC then String.mk [bslashC, dquoteC]
  else if c = bslashC then String.mk [bslashC, bslashC]
  else if c.toNat = 10 then String.mk [bslashC, 'n']
  else if c.toNat = 13 then String.mk [bslashC, 'r']
  else if c.toNat = 9 then String.mk [bslashC, 't']
  else if c.toNat = 8 then String.mk [bslashC, 'b']
  else if c.toNat = 12 then String.mk [bslashC, 'f']
  else if c.toNat < 32 ∨ 126 < c.toNat then escU c.toNat
  else String.singleton c

def escStr (s : String) : String :=
  dquoteS ++ String.join (s.data.map escChar) ++ dquoteS

mutual

def json_dumps : Json → String
  | Json.null => "null"
  | Json.bool true => "true"
  | Json.bool false => "false"
  | Json.num raw => raw
  | Json.str s => escStr s
  | Json.arr xs => "[" ++ dumpsElems xs ++ "]"
  | Json.obj kvs => String.singleton lbraceC ++ dumpsEntries kvs ++ String.singleton rbraceC

def dumpsElems : JsonList → String
  | JsonList.nil => ""
  | JsonList.cons x JsonList.nil => json_dumps x
  | JsonList.cons x (JsonList.cons y t) =>
    json_dumps x ++ ", " ++ dumpsElems (JsonList.cons y t)

def dumpsEntries : JsonObj → String
  | JsonObj.nil => ""
  | JsonObj.cons k v JsonObj.nil => escStr k ++ ": " ++ json_dumps v
  | JsonObj.cons k v (JsonObj.cons k2 v2 t) =>
    escStr k ++ ": " ++ json_dumps v ++ ", " ++ dumpsEntries (JsonObj.cons k2 v2 t)

end

/-! ### Component classification (component_identification.py). -/

def EXPECTED_COMPONENTS : List String :=
  ["profile/role", "directive", "workflows", "context", "examples", "output format/style",
    "constraints", "others"]

/-- find_best_match (lines 152-160): fold over the candidate keys in dict
iteration order, keeping the strictly best ratio; the initial ratio 0
means a key of ratio 0 is never selected. -/
def find_best_match (keys : List String) (expected_module : String) : Option String × ℚ :=
  keys.foldl (fun acc key =>
    let ratio := ratioOf key.data expected_module.data
    if acc.2 < ratio then (some key, ratio) else acc) (none, 0)

/-- The loop body of validate_and_clean_response (lines 139-145) applied to
a parsed dict: one output entry per expected component, copying the value
of the best-matching key when its ratio beats the threshold (Python also
tests the truthiness of best_match, so a matched empty-string key would
fall to the empty default) and the empty string otherwise. The indexing
components[best_match] cannot fail, since the best match is one of the
keys; the getD default is unreachable. -/
def clean_entry (components : List (String × Json)) (similarity_threshold : ℚ)
    (expected_component : String) : String × Json :=
  match find_best_match (components.map Prod.fst) expected_component with
  | (some best_match, best_ratio) =>
    if best_match.isEmpty = false ∧ similarity_threshold < best_ratio then
      (expected_component, (components.lookup best_match).getD Json.null)
    else (expected_component, Json.str "")
  | (none, _) => (expected_component, Json.str "")

def clean_components (components : List (String × Json)) (similarity_threshold : ℚ) :
    List (String × Json) :=
  EXPECTED_COMPONENTS.map (clean_entry components similarity_threshold)

/-- get_default_response (lines 162-170): the dumped all-empty dict. -/
def get_default_response : String :=
  json_dumps (Json.obj (JsonObj.ofList (EXPECTED_COMPONENTS.map fun k => (k, Json.str ""))))

/-- The value json.loads gives back on the default response string. -/
def default_components_obj : Json :=
  Json.obj (JsonObj.ofList (EXPECTED_COMPONENTS.map fun k => (k, Json.str "")))

/-! ### Exceptions. Every exception the embedded code can raise or observe
derives from Exception; str of the exception is the carried message. -/

inductive PyExn where
  | jsonDecodeError (message : String)
  | typeError (message : String)
  | attributeError (message : String)
  | apiError (message : String)

def exnMessage : PyExn → String
  | PyExn.jsonDecodeError m => m
  | PyExn.typeError m => m
  | PyExn.attributeError m => m
  | PyExn.apiError m => m

/-- Whether the except (json.JSONDecodeError, TypeError) clause at line 46
catches the exception. -/
def caughtByDecodeOrType : PyExn → Bool
  | PyExn.jsonDecodeError _ => true
  | PyExn.typeError _ => true
  | _ => false

/-- Whether the except Exception clause at line 49 catches the exception:
every modelled exception derives from Exception. -/
def caughtByException : PyExn → Bool := fun _ => true

/-- The message of the AttributeError raised by components.keys() on a
non-dict value. -/
def pyAttrMsg (typeName : String) : String :=
  squoteS ++ typeName ++ squoteS ++ " object has no attribute " ++ squoteS ++ "keys" ++ squoteS

/-- The message of the TypeError raised by the one-argument call
component_detection(prompt) at line 121. -/
def typeErrorMsg : String :=
  "component_detection() missing 2 required positional arguments: " ++ squoteS ++ "client"
    ++ squoteS ++ " and " ++ squoteS ++ "model" ++ squoteS

/-- validate_and_clean_response (lines 125-150): lowercase, parse; a parse
failure is caught and yields the default response; a parsed non-dict
raises AttributeError at components.keys(), which this function does not
catch; a parsed dict is cleaned against the taxonomy and dumped. -/
def validate_and_clean_response (response : String) (similarity_threshold : ℚ) :
    Except PyExn String :=
  match json_loads (pyLower response) with
  | none => Except.ok get_default_response
  | some (Json.obj entries) =>
    Except.ok (json_dumps (Json.obj (JsonObj.ofList
      (clean_components entries.toList similarity_threshold))))
  | some v => Except.error (PyExn.attributeError (pyAttrMsg (pyTypeName v)))

/-- The wait-time extraction at line 116:
float(error_message.split(quote-in-quote)[-1].split(quote-s-quote)[0]),
with None for the ValueError branch. The IndexError branch is dead: split
never returns an empty list. -/
def parseWait (error_message : String) : Option ℚ :=
  pyFloat ((pySplit ((pySplit error_message "in ").getLastD "") "s").headD "")

/-- component_detection (lines 54-123) as a function of the outcome of the
one external call. Returns the result (a response string, or the raised
exception when one escapes) paired with the sleeps performed. On an
exception whose message signals a rate limit: a parseable wait sleeps that
long and returns the default; an unparseable wait sleeps 60 and then calls
component_detection(prompt) with two arguments missing, which raises
TypeError out of the handler. Any other exception returns the default. -/
def component_detection (call : CallResult) : Except PyExn String × List ℚ :=
  let body : Except PyExn String :=
    match call with
    | CallResult.failure m => Except.error (PyExn.apiError m)
    | CallResult.success response => validate_and_clean_response response (7 / 10)
  match body with
  | Except.ok s => (Except.ok s, [])
  | Except.error e =>
    let error_message := exnMessage e
    if containsSubstr error_message "429" || containsSubstr error_message "Rate limit reached"
    then
      match parseWait error_message with
      | some wait_time => (Except.ok get_default_response, [wait_time])
      | none => (Except.error (PyExn.typeError typeErrorMsg), [60])
    else (Except.ok get_default_response, [])

/-- The while-loop of detect_component_with_retry (lines 33-52), counting
down the remaining retries and up the call index. The error positions in
the result are reachable only by an exception both except clauses miss;
the theorems show there is none. -/
def retryLoop (calls : Nat → CallResult) : Nat → Nat → Except PyExn Json × Nat
  | idx, 0 =>
    match json_loads get_default_response with
    | some d => (Except.ok d, idx)
    | none => (Except.error (PyExn.jsonDecodeError "Expecting value"), idx)
  | idx, remaining + 1 =>
    match (component_detection (calls idx)).1 with
    | Except.error e =>
      if caughtByDecodeOrType e || caughtByException e then retryLoop calls (idx + 1) remaining
      else (Except.error e, idx + 1)
    | Except.ok response =>
      match json_loads response with
      | none => retryLoop calls (idx + 1) remaining
      | some components =>
        if response = get_default_response then retryLoop calls (idx + 1) remaining
        else if components.isObj then (Except.ok components, idx + 1)
        else retryLoop calls (idx + 1) remaining

/-- detect_component_with_retry (lines 20-52): the loop from retry count 0,
also returning how many calls to the external capability were made. -/
def detect_component_with_retry (calls : Nat → CallResult) (max_retries : Nat) :
    Except PyExn Json × Nat :=
  retryLoop calls 0 max_retries

/-- The value validate_and_clean_response gives an expected key for a given
raw response: what the cleaned dict maps the key to, when the response
parses to a dict. Used to state claims about cleaned values. -/
def cleaned_value (response key : String) : Option Json :=
  match json_loads (pyLower response) with
  | some (Json.obj entries) => (clean_components entries.toList (7 / 10)).lookup key
  | _ => none

/-! ### Concrete inputs used by witnesses and counterexamples. -/

/-- A raw response whose parsed dict maps directive to null: the key matches
the taxonomy exactly, so its value is copied verbatim. -/
def nullDirectiveResponse : String := "\x7b\x22directive\x22: null\x7d"

/-- A rate-limit error message whose wait-time substring, a moment, is not a
number: split on the in separator, the last piece is the two words a
moment, and there is no s to cut at, so float() raises ValueError. -/
def unparseableRateLimitMessage : String :=
  "Rate limit reached. Please try again in a moment"

/-- An external capability that fails once and then returns a valid
single-key classification. -/
def exampleCalls : Nat → CallResult := fun i =>
  if i = 0 then CallResult.failure "the external capability failed"
  else CallResult.success "\x7b\x22directive\x22: \x22x\x22\x7d"

/-- The cleaned dict for the single-key response above. -/
def exampleCleaned : List (String × Json) :=
  clean_components [("directive", Json.str "x")] (7 / 10)

/-! ## Theorems. -/

/-- Helper: the fold of getCloseMatches1 only ever returns an element of the
list it folds over, or its initial accumulator. -/
theorem gcm_fold_mem (g : Option (ℚ × String) → ℚ × String → Option (ℚ × String))
    (hg : ∀ acc p, g acc p = acc ∨ g acc p = some p) :
    ∀ (l : List (ℚ × String)) (acc : Option (ℚ × String)) (p : ℚ × String),
      l.foldl g acc = some p → acc = some p ∨ p ∈ l := by
  intro l
  induction l with
  | nil => intro acc p h; exact Or.inl h
  | cons x t ih =>
    intro acc p h
    rcases ih (g acc x) p h with h2 | h2
    · rcases hg acc x with h3 | h3
      · exact Or.inl (h3 ▸ h2)
      · rw [h3] at h2
        injection h2 with h4
        exact Or.inr (h4 ▸ List.mem_cons_self x t)
    · exact Or.inr (List.mem_cons_of_mem x h2)

/-- Helper: a result of getCloseMatches1 is one of the possibilities. -/
theorem getCloseMatches1_mem (word : String) (poss : List String) (cutoff : ℚ) (m : String)
    (h : getCloseMatches1 word poss cutoff = some m) : m ∈ poss := by
  unfold getCloseMatches1 at h
  rw [Option.map_eq_some'] at h
  obtain ⟨p, hp, hm⟩ := h
  have hmem := gcm_fold_mem _ (by
    intro acc q
    cases acc with
    | none => exact Or.inr rfl
    | some r =>
      by_cases hc : r.1 < q.1 ∨ (r.1 = q.1 ∧ charListLt r.2.data q.2.data)
      · simp [hc]
      · simp [hc]) _ none p hp
  rcases hmem with h2 | h2
  · exact absurd h2 (by simp)
  · rw [List.mem_filterMap] at h2
    obtain ⟨x, hx, hfx⟩ := h2
    by_cases hr : cutoff ≤ ratioOf x.data word.data
    · simp only [hr, if_pos] at hfx
      cases hfx
      exact hm ▸ hx
    · simp [hr] at hfx

/-- Helper: when nothing reaches the cutoff, getCloseMatches1 is empty. -/
theorem getCloseMatches1_none (word : String) (poss : List String) (cutoff : ℚ)
    (h : ∀ x ∈ poss, ratioOf x.data word.data < cutoff) :
    getCloseMatches1 word poss cutoff = none := by
  unfold getCloseMatches1
  have : poss.filterMap (fun x =>
      let r := ratioOf x.data word.data
      if cutoff ≤ r then some (r, x) else none) = [] := by
    rw [List.filterMap_eq_nil_iff]
    intro x hx
    have := h x hx
    simp only [ite_eq_right_iff]
    intro hc
    exact absurd hc (not_le.mpr this)
  rw [this]
  rfl

/-- Claim C9: classify_placeholder_with_llm always lands in the fixed
five-category taxonomy; an external failure yields Others, and so does a
raw answer that no category reaches similarity 0.6 against. -/
theorem classify_placeholder_taxonomy (call : CallResult) :
    classify_placeholder_with_llm call ∈ PLACEHOLDER_CATEGORIES
    ∧ (∀ m, call = CallResult.failure m → classify_placeholder_with_llm call = "Others")
    ∧ (∀ s, call = CallResult.success s →
        (∀ c ∈ PLACEHOLDER_CATEGORIES, ratioOf c.data (pyStrip s).data < 3 / 5) →
        classify_placeholder_with_llm call = "Others") := by
  refine ⟨?_, ?_, ?_⟩
  · cases call with
    | failure m =>
      show "Others" ∈ PLACEHOLDER_CATEGORIES
      decide
    | success s =>
      show (match getCloseMatches1 (pyStrip s) PLACEHOLDER_CATEGORIES (3 / 5) with
        | some best => best
        | none => "Others") ∈ PLACEHOLDER_CATEGORIES
      cases h : getCloseMatches1 (pyStrip s) PLACEHOLDER_CATEGORIES (3 / 5) with
      | none => simp only [h]; decide
      | some m =>
        simp only [h]
        exact getCloseMatches1_mem _ _ _ _ h
  · intro m hm
    subst hm
    rfl
  · intro s hs hr
    subst hs
    show (match getCloseMatches1 (pyStrip s) PLACEHOLDER_CATEGORIES (3 / 5) with
      | some best => best
      | none => "Others") = "Others"
    rw [getCloseMatches1_none _ _ _ hr]

/-- Claim C7: the three position examples of the spec, and the bucketing
rule with real-number division. -/
theorem relative_word_position_examples :
    calculate_relative_word_positions "a b c \x7b\x7bx\x7d\x7d d e f"
        (detect_placeholder "a b c \x7b\x7bx\x7d\x7d d e f")
      = [("\x7b\x7bx\x7d\x7d", "Middle")]
    ∧ calculate_relative_word_positions "\x7b\x7bx\x7d\x7d a b c d e f"
        (detect_placeholder "\x7b\x7bx\x7d\x7d a b c d e f")
      = [("\x7b\x7bx\x7d\x7d", "Beginning")]
    ∧ calculate_relative_word_positions "a b c d e f \x7b\x7bx\x7d\x7d"
        (detect_placeholder "a b c d e f \x7b\x7bx\x7d\x7d")
      = [("\x7b\x7bx\x7d\x7d", "End")]
    ∧ (∀ word_position total_words : Nat,
        classify_relative_word_position word_position total_words =
          if (word_position : ℚ) ≤ (total_words : ℚ) / 3 then "Beginning"
          else if 2 * (total_words : ℚ) / 3 ≤ (word_position : ℚ) then "End"
          else "Middle") := by
  refine ⟨by with_unfolding_all exact rfl, by with_unfolding_all exact rfl, by with_unfolding_all exact rfl, ?_⟩
  intro w t
  unfold classify_relative_word_position
  have h23 : (t : ℚ) / 3 * 2 = 2 * (t : ℚ) / 3 := by ring
  by_cases h1 : (w : ℚ) ≤ (t : ℚ) / 3
  · simp [h1]
  · by_cases h2 : 2 * (t : ℚ) / 3 ≤ (w : ℚ)
    · simp [h1, ge_iff_le, h23, h2]
    · simp [h1, ge_iff_le, h23, h2]

/-- Claim C8: the detection example of the spec, and a duplicated
placeholder detected twice in order. -/
theorem detect_placeholder_examples :
    detect_placeholder "Hello \x7b\x7bname\x7d\x7d, see \x7btopic\x7d and PLACEHOLDER"
      = ["\x7b\x7bname\x7d\x7d", "\x7btopic\x7d", "PLACEHOLDER"]
    ∧ detect_placeholder "\x7b\x7ba\x7d\x7d x \x7b\x7ba\x7d\x7d"
      = ["\x7b\x7ba\x7d\x7d", "\x7b\x7ba\x7d\x7d"] := by
  exact ⟨by rfl, by rfl⟩

/-- Claim C10: the word count of the example text includes the placeholder
name, so it is 7 and not 6; a placeholder occurring twice gets both its
records from the first occurrence of its text, here Beginning twice even
though the second occurrence is at the end; and in general two records for
the same placeholder text always carry the same position. -/
theorem word_count_includes_placeholder_names :
    countWords ("a b c \x7b\x7bx\x7d\x7d d e f".data) = 7
    ∧ calculate_relative_word_positions "\x7b\x7bx\x7d\x7d a b \x7b\x7bx\x7d\x7d"
        (detect_placeholder "\x7b\x7bx\x7d\x7d a b \x7b\x7bx\x7d\x7d")
      = [("\x7b\x7bx\x7d\x7d", "Beginning"), ("\x7b\x7bx\x7d\x7d", "Beginning")]
    ∧ (∀ (text : String) (ps : List String) (p pos1 pos2 : String),
        (p, pos1) ∈ calculate_relative_word_positions text ps →
        (p, pos2) ∈ calculate_relative_word_positions text ps → pos1 = pos2) := by
  refine ⟨by rfl, by with_unfolding_all exact rfl, ?_⟩
  intro text ps p pos1 pos2 h1 h2
  unfold calculate_relative_word_positions at h1 h2
  rw [List.mem_filterMap] at h1 h2
  obtain ⟨a1, _, hf1⟩ := h1
  obtain ⟨a2, _, hf2⟩ := h2
  rw [Option.map_eq_some'] at hf1 hf2
  obtain ⟨i1, hi1, he1⟩ := hf1
  obtain ⟨i2, hi2, he2⟩ := hf2
  have ha1 : a1 = p := congrArg Prod.fst he1
  have ha2 : a2 = p := congrArg Prod.fst he2
  subst ha1
  subst ha2
  rw [hi1] at hi2
  cases hi2
  have := (congrArg Prod.snd he1).symm.trans (congrArg Prod.snd he2)
  exact this

/-- Helper: the fold of find_best_match only ever selects one of the keys it
iterates over, or keeps its initial accumulator. -/
theorem fbm_fold_mem (expected_module : String) :
    ∀ (keys : List String) (acc : Option String × ℚ) (k : String) (r : ℚ),
      keys.foldl (fun acc key =>
        if acc.2 < ratioOf key.data expected_module.data
        then (some key, ratioOf key.data expected_module.data) else acc) acc = (some k, r) →
      acc.1 = some k ∨ k ∈ keys := by
  intro keys
  induction keys with
  | nil =>
    intro acc k r h
    rw [List.foldl_nil] at h
    exact Or.inl (by rw [h])
  | cons x t ih =>
    intro acc k r h
    rw [List.foldl_cons] at h
    rcases ih _ k r h with h2 | h2
    · by_cases hc : acc.2 < ratioOf x.data expected_module.data
      · rw [if_pos hc] at h2
        injection h2 with h3
        exact Or.inr (h3 ▸ List.mem_cons_self x t)
      · rw [if_neg hc] at h2
        exact Or.inl h2
    · exact Or.inr (List.mem_cons_of_mem x h2)

/-- Helper: a selected best match is one of the candidate keys. -/
theorem find_best_match_mem (keys : List String) (e k : String) (r : ℚ)
    (h : find_best_match keys e = (some k, r)) : k ∈ keys := by
  rcases fbm_fold_mem e keys (none, 0) k r h with h2 | h2
  · exact absurd h2 (by simp)
  · exact h2

/-- Helper: a value found by dict lookup is one of the dict values. -/
theorem lookup_mem_values :
    ∀ (l : List (String × Json)) (k : String) (v : Json),
      l.lookup k = some v → v ∈ l.map Prod.snd := by
  intro l
  induction l with
  | nil => intro k v h; cases h
  | cons p t ih =>
    intro k v h
    obtain ⟨a, b⟩ := p
    simp only [List.lookup] at h
    cases hk : (k == a) with
    | true =>
      rw [hk] at h
      injection h with h2
      rw [List.map_cons]
      exact h2 ▸ List.mem_cons_self _ _
    | false =>
      rw [hk] at h
      rw [List.map_cons]
      exact List.mem_cons_of_mem _ (ih k v h)

/-- Helper: a key of the dict has a lookup value. -/
theorem lookup_some_of_mem_keys :
    ∀ (l : List (String × Json)) (k : String),
      k ∈ l.map Prod.fst → ∃ v, l.lookup k = some v := by
  intro l
  induction l with
  | nil => intro k h; cases h
  | cons p t ih =>
    intro k h
    obtain ⟨a, b⟩ := p
    cases hk : (k == a) with
    | true => exact ⟨b, by simp only [List.lookup, hk]⟩
    | false =>
      rw [List.map_cons] at h
      rcases List.mem_cons.mp h with h2 | h2
      · exfalso
        rw [show k = a from h2] at hk
        simp at hk
      · obtain ⟨v, hv⟩ := ih k h2
        exact ⟨v, by simp only [List.lookup, hk]; exact hv⟩

/-- Helper: every cleaned entry keeps its expected-component key. -/
theorem clean_entry_fst (d : List (String × Json)) (thr : ℚ) (e : String) :
    (clean_entry d thr e).1 = e := by
  unfold clean_entry
  rcases hb : find_best_match (d.map Prod.fst) e with ⟨bm, br⟩
  cases bm with
  | none => rfl
  | some k =>
    show (if k.isEmpty = false ∧ thr < br then (e, (d.lookup k).getD Json.null)
      else (e, Json.str "")).1 = e
    split_ifs <;> rfl

/-- Helper: the cleaned keys are exactly the expected taxonomy, in order. -/
theorem clean_components_keys (d : List (String × Json)) (thr : ℚ) :
    (clean_components d thr).map Prod.fst = EXPECTED_COMPONENTS := by
  unfold clean_components
  rw [List.map_map]
  have h : ∀ l : List String, l.map (Prod.fst ∘ clean_entry d thr) = l := by
    intro l
    induction l with
    | nil => rfl
    | cons x t ih =>
      simp only [List.map_cons, ih, Function.comp_apply, clean_entry_fst]
  exact h EXPECTED_COMPONENTS

/-- Helper: every cleaned value is the empty string or a verbatim value of
the raw dict. -/
theorem clean_entry_value (d : List (String × Json)) (thr : ℚ) (e : String) :
    (clean_entry d thr e).2 = Json.str ""
    ∨ (clean_entry d thr e).2 ∈ d.map Prod.snd := by
  unfold clean_entry
  rcases hb : find_best_match (d.map Prod.fst) e with ⟨bm, br⟩
  cases bm with
  | none => exact Or.inl rfl
  | some k =>
    show (if k.isEmpty = false ∧ thr < br then (e, (d.lookup k).getD Json.null)
        else (e, Json.str "")).2 = Json.str ""
      ∨ (if k.isEmpty = false ∧ thr < br then (e, (d.lookup k).getD Json.null)
        else (e, Json.str "")).2 ∈ d.map Prod.snd
    by_cases hc : (k.isEmpty = false ∧ thr < br)
    · rw [if_pos hc]
      have hk : k ∈ d.map Prod.fst := find_best_match_mem _ _ _ _ hb
      obtain ⟨v, hv⟩ := lookup_some_of_mem_keys d k hk
      rw [hv]
      exact Or.inr (lookup_mem_values d k v hv)
    · rw [if_neg hc]
      exact Or.inl rfl

/-- Helper: parse failure gives the default response (the except clause of
validate_and_clean_response). -/
theorem validate_of_loads_none (s : String) (thr : ℚ)
    (h : json_loads (pyLower s) = none) :
    validate_and_clean_response s thr = Except.ok get_default_response := by
  unfold validate_and_clean_response
  rw [h]

/-- Helper: a parsed dict is cleaned and dumped. -/
theorem validate_of_loads_obj (s : String) (thr : ℚ) (entries : JsonObj)
    (h : json_loads (pyLower s) = some (Json.obj entries)) :
    validate_and_clean_response s thr
      = Except.ok (json_dumps (Json.obj (JsonObj.ofList
          (clean_components entries.toList thr)))) := by
  unfold validate_and_clean_response
  rw [h]

/-- Helper: a parsed non-dict raises AttributeError out of the function. -/
theorem validate_of_loads_nonobj (s : String) (thr : ℚ) (v : Json)
    (h : json_loads (pyLower s) = some v) (hv : v.isObj = false) :
    validate_and_clean_response s thr
      = Except.error (PyExn.attributeError (pyAttrMsg (pyTypeName v))) := by
  unfold validate_and_clean_response
  rw [h]
  cases v
  all_goals first
    | rfl
    | (exact absurd hv (by simp [Json.isObj]))

/-- Helper: on a successful call, component_detection returns what the
validator returned, with no sleeping. -/
theorem component_detection_success (s r : String)
    (h : validate_and_clean_response s (7 / 10) = Except.ok r) :
    component_detection (CallResult.success s) = (Except.ok r, []) := by
  unfold component_detection
  simp only [h]

/-- Helper: on a failed call, component_detection either swallows the
failure into the default response or raises the TypeError of the broken
recursive call. -/
theorem component_detection_failure_result (m : String) :
    (component_detection (CallResult.failure m)).1 = Except.ok get_default_response
    ∨ (component_detection (CallResult.failure m)).1
        = Except.error (PyExn.typeError typeErrorMsg) := by
  unfold component_detection
  by_cases h1 : (containsSubstr m "429" || containsSubstr m "Rate limit reached") = true
  · cases hw : parseWait m with
    | some w => left; simp [exnMessage, h1, hw]
    | none => right; simp [exnMessage, h1, hw]
  · left
    simp [exnMessage, h1]

set_option maxRecDepth 8000 in
/-- Helper: parsing the default response round-trips to the default dict. -/
theorem json_loads_default_response :
    json_loads get_default_response = some default_components_obj := by
  with_unfolding_all exact rfl

/-- Helper: one unfolding of the loop at a positive remaining count. -/
theorem retryLoop_succ (calls : Nat → CallResult) (idx rem : Nat) :
    retryLoop calls idx (rem + 1)
      = match (component_detection (calls idx)).1 with
        | Except.error e =>
          if caughtByDecodeOrType e || caughtByException e then retryLoop calls (idx + 1) rem
          else (Except.error e, idx + 1)
        | Except.ok response =>
          match json_loads response with
          | none => retryLoop calls (idx + 1) rem
          | some components =>
            if response = get_default_response then retryLoop calls (idx + 1) rem
            else if components.isObj then (Except.ok components, idx + 1)
            else retryLoop calls (idx + 1) rem := rfl

set_option maxRecDepth 8000 in
/-- Helper: an exhausted loop returns the parsed default response. -/
theorem retryLoop_zero (calls : Nat → CallResult) (idx : Nat) :
    retryLoop calls idx 0 = (Except.ok default_components_obj, idx) := by
  show (match json_loads get_default_response with
    | some d => (Except.ok d, idx)
    | none => (Except.error (PyExn.jsonDecodeError "Expecting value"), idx))
    = (Except.ok default_components_obj, idx)
  rw [json_loads_default_response]

/-- Helper: an attempt whose detection raises is caught and retried. -/
theorem retryLoop_step_error (calls : Nat → CallResult) (idx rem : Nat) (e : PyExn)
    (h : (component_detection (calls idx)).1 = Except.error e) :
    retryLoop calls idx (rem + 1) = retryLoop calls (idx + 1) rem := by
  rw [retryLoop_succ]
  simp only [h]
  simp [caughtByException]

/-- Helper: an attempt that produced the default response is retried. -/
theorem retryLoop_step_default (calls : Nat → CallResult) (idx rem : Nat)
    (h : (component_detection (calls idx)).1 = Except.ok get_default_response) :
    retryLoop calls idx (rem + 1) = retryLoop calls (idx + 1) rem := by
  rw [retryLoop_succ]
  simp only [h, json_loads_default_response]
  simp

/-- Helper: an attempt that produced a non-default dict returns it at once. -/
theorem retryLoop_step_return (calls : Nat → CallResult) (idx rem : Nat) (r : String) (d : Json)
    (h : (component_detection (calls idx)).1 = Except.ok r)
    (hl : json_loads r = some d) (hne : r ≠ get_default_response) (hobj : d.isObj = true) :
    retryLoop calls idx (rem + 1) = (Except.ok d, idx + 1) := by
  rw [retryLoop_succ]
  simp only [h, hl]
  simp [hne, hobj]

/-- Helper: the retry loop always ends in a normal return carrying a dict. -/
theorem retryLoop_ok (calls : Nat → CallResult) :
    ∀ (rem idx : Nat), ∃ d, (retryLoop calls idx rem).1 = Except.ok d ∧ d.isObj = true := by
  intro rem
  induction rem with
  | zero =>
    intro idx
    exact ⟨default_components_obj, by rw [retryLoop_zero], rfl⟩
  | succ n ih =>
    intro idx
    cases hc : (component_detection (calls idx)).1 with
    | error e =>
      rw [retryLoop_step_error calls idx n e hc]
      exact ih (idx + 1)
    | ok response =>
      cases hl : json_loads response with
      | none =>
        have hstep : retryLoop calls idx (n + 1) = retryLoop calls (idx + 1) n := by
          rw [retryLoop_succ]
          simp only [hc, hl]
        rw [hstep]
        exact ih (idx + 1)
      | some components =>
        by_cases hr : response = get_default_response
        · subst hr
          rw [retryLoop_step_default calls idx n hc]
          exact ih (idx + 1)
        · cases ho : components.isObj with
          | true =>
            exact ⟨components,
              by rw [retryLoop_step_return calls idx n response components hc hl hr ho], ho⟩
          | false =>
            have hstep : retryLoop calls idx (n + 1) = retryLoop calls (idx + 1) n := by
              rw [retryLoop_succ]
              simp only [hc, hl]
              simp [hr, ho]
            rw [hstep]
            exact ih (idx + 1)

/-- Helper: when every attempt yields the default response, the loop runs
its full count and returns the default dict. -/
theorem retryLoop_all_default (calls : Nat → CallResult)
    (h : ∀ i, (component_detection (calls i)).1 = Except.ok get_default_response) :
    ∀ rem idx, retryLoop calls idx rem = (Except.ok default_components_obj, idx + rem) := by
  intro rem
  induction rem with
  | zero =>
    intro idx
    rw [retryLoop_zero]
    simp
  | succ n ih =>
    intro idx
    rw [retryLoop_step_default calls idx n (h idx), ih (idx + 1)]
    congr 1
    omega

/-- Claim C2: for every behavior of the external capability, the
orchestrator returns normally with a dict result; no exception escapes the
two except clauses. -/
theorem detect_component_with_retry_total (calls : Nat → CallResult) (max_retries : Nat) :
    ∃ d, (detect_component_with_retry calls max_retries).1 = Except.ok d
      ∧ d.isObj = true :=
  retryLoop_ok calls max_retries 0

/-- Claim C3: an external capability that always returns unparseable text
makes the orchestrator call it exactly max_retries times and then return
the default-empty dict, whose keys are the eight components with empty
string values. -/
theorem retry_exhaustion_returns_default (calls : Nat → CallResult) (max_retries : Nat)
    (h : ∀ i, ∃ s, calls i = CallResult.success s ∧ json_loads (pyLower s) = none) :
    detect_component_with_retry calls max_retries
      = (Except.ok default_components_obj, max_retries)
    ∧ default_components_obj
        = Json.obj (JsonObj.ofList (EXPECTED_COMPONENTS.map fun k => (k, Json.str ""))) := by
  refine ⟨?_, rfl⟩
  have hcd : ∀ i, (component_detection (calls i)).1 = Except.ok get_default_response := by
    intro i
    obtain ⟨s, hs, hp⟩ := h i
    rw [hs, component_detection_success s get_default_response
      (validate_of_loads_none s (7 / 10) hp)]
  have hrun := retryLoop_all_default calls hcd max_retries 0
  unfold detect_component_with_retry
  rw [hrun]
  rw [Nat.zero_add]

/-- Witness for C3 at a concrete capability returning the unparseable text
oops on every attempt. -/
theorem retry_exhaustion_returns_default_witness :
    detect_component_with_retry (fun _ => CallResult.success "oops") 3
      = (Except.ok default_components_obj, 3)
    ∧ default_components_obj
        = Json.obj (JsonObj.ofList (EXPECTED_COMPONENTS.map fun k => (k, Json.str ""))) :=
  retry_exhaustion_returns_default (fun _ => CallResult.success "oops") 3
    (fun _ => ⟨"oops", rfl, rfl⟩)

/-- Claim C4: a failure on the first attempt and a response that validates
to a non-default dict on the second make the orchestrator return that dict
after exactly two calls. -/
theorem retry_stops_after_success (calls : Nat → CallResult) (m s r : String) (d : Json)
    (h0 : calls 0 = CallResult.failure m) (h1 : calls 1 = CallResult.success s)
    (hv : validate_and_clean_response s (7 / 10) = Except.ok r)
    (hne : r ≠ get_default_response)
    (hl : json_loads r = some d) (hobj : d.isObj = true) :
    detect_component_with_retry calls 3 = (Except.ok d, 2) := by
  unfold detect_component_with_retry
  have hstep1 : retryLoop calls 0 3 = retryLoop calls 1 2 := by
    rcases component_detection_failure_result m with hc | hc
    · exact retryLoop_step_default calls 0 2 (by rw [h0]; exact hc)
    · exact retryLoop_step_error calls 0 2 (PyExn.typeError typeErrorMsg)
        (by rw [h0]; exact hc)
  rw [hstep1]
  have hcd : (component_detection (calls 1)).1 = Except.ok r := by
    rw [h1, component_detection_success s r hv]
  exact retryLoop_step_return calls 1 1 r d hcd hl hne hobj

set_option maxRecDepth 40000 in
/-- Witness for C4 at a concrete capability failing once and then returning
a single-key classification. -/
theorem retry_stops_after_success_witness :
    detect_component_with_retry exampleCalls 3
      = (Except.ok (Json.obj (JsonObj.ofList exampleCleaned)), 2) :=
  retry_stops_after_success exampleCalls "the external capability failed"
    "\x7b\x22directive\x22: \x22x\x22\x7d"
    (json_dumps (Json.obj (JsonObj.ofList exampleCleaned)))
    (Json.obj (JsonObj.ofList exampleCleaned))
    rfl rfl (by with_unfolding_all exact rfl)
    (ne_of_beq_false (by with_unfolding_all exact rfl))
    (by with_unfolding_all exact rfl) rfl

/-- Claim C5 (the code defect): on a rate-limit failure whose wait-time
substring does not parse, component_detection sleeps 60 and then raises
TypeError from the one-argument recursive call, instead of completing
normally with a response as specified. -/
theorem rate_limit_unparseable_wait_raises :
    component_detection (CallResult.failure unparseableRateLimitMessage)
      = (Except.error (PyExn.typeError typeErrorMsg), [(60 : ℚ)])
    ∧ parseWait unparseableRateLimitMessage = none := by
  constructor
  · with_unfolding_all exact rfl
  · with_unfolding_all exact rfl

/-- Claim C1 (amended): for every raw response, the validator returns the
default map on parse failure, returns a map with exactly the eight
expected keys when the response parses to a dict, and raises
AttributeError when the response parses to a non-dict value. -/
theorem validate_response_key_shape (s : String) :
    (json_loads (pyLower s) = none →
      validate_and_clean_response s (7 / 10) = Except.ok get_default_response)
    ∧ (∀ entries, json_loads (pyLower s) = some (Json.obj entries) →
        validate_and_clean_response s (7 / 10)
          = Except.ok (json_dumps (Json.obj (JsonObj.ofList
              (clean_components entries.toList (7 / 10)))))
        ∧ (clean_components entries.toList (7 / 10)).map Prod.fst = EXPECTED_COMPONENTS)
    ∧ (∀ v, json_loads (pyLower s) = some v → v.isObj = false →
        validate_and_clean_response s (7 / 10)
          = Except.error (PyExn.attributeError (pyAttrMsg (pyTypeName v)))) := by
  refine ⟨?_, ?_, ?_⟩
  · intro h
    exact validate_of_loads_none s (7 / 10) h
  · intro entries h
    exact ⟨validate_of_loads_obj s (7 / 10) entries h, clean_components_keys _ _⟩
  · intro v h hv
    exact validate_of_loads_nonobj s (7 / 10) v h hv

/-- Counterexample to C1 as stated: the response 5 parses to an int, and
the validator raises AttributeError rather than returning any map. -/
theorem validate_nondict_response_raises :
    validate_and_clean_response "5" (7 / 10)
      = Except.error (PyExn.attributeError (pyAttrMsg "int")) := by
  with_unfolding_all exact rfl

/-- Claim C6 (amended): the cleaned map always has exactly the eight
expected keys; each value is the empty string or a verbatim value of the
raw dict, so it is a string whenever all raw values are strings, but a
non-string raw value (such as null) is copied through unchanged. -/
theorem clean_components_shape_and_values (d : List (String × Json)) (thr : ℚ) :
    (clean_components d thr).map Prod.fst = EXPECTED_COMPONENTS
    ∧ (∀ p ∈ clean_components d thr, p.2 = Json.str "" ∨ p.2 ∈ d.map Prod.snd)
    ∧ ((∀ v ∈ d.map Prod.snd, v.isStr = true) →
        ∀ p ∈ clean_components d thr, p.2.isStr = true) := by
  have hmem : ∀ p ∈ clean_components d thr,
      p.2 = Json.str "" ∨ p.2 ∈ d.map Prod.snd := by
    intro p hp
    unfold clean_components at hp
    rw [List.mem_map] at hp
    obtain ⟨e, _, he⟩ := hp
    rw [← he]
    exact clean_entry_value d thr e
  refine ⟨clean_components_keys d thr, hmem, ?_⟩
  intro hall p hp
  rcases hmem p hp with h | h
  · rw [h]
    rfl
  · exact hall _ h

/-- Counterexample to C6 as stated: a raw response with a null value for
directive produces a cleaned map whose directive value is null, not a
string. -/
theorem cleaned_value_can_be_null :
    cleaned_value nullDirectiveResponse "directive" = some Json.null
    ∧ Json.isStr Json.null = false := by
  constructor
  · with_unfolding_all exact rfl
  · rfl

end S2P
